import Mathlib

/-!
Verification of the session authentication controller of mpr-ui.js
(createAuthHeader and the mpr-login-button widget).

The JavaScript controller is embedded shallowly: the mutable closure
variables of createAuthHeader become the fields of CtrlState, each
operation becomes a pure state transformer returning the successor state
together with the list of events dispatched on the host element, and each
asynchronous suspension point (nonce issuance, credential exchange,
logout, session bootstrap) is parameterised by the outcome the network or
the optional host helper produced.  A total return type models a promise
that always resolves; an Except return type models a promise that may
reject.
-/

namespace MprUi

/-- Profiles are JSON objects from the session service: an association
list of string fields in insertion order. -/
abbrev Profile := List (String × String)

/-- JavaScript values as far as markAuthenticated inspects them: the
guard is (not profile or typeof profile is not an object). -/
inductive JsValue where
  | nullv
  | undef
  | boolv (b : Bool)
  | numv (n : Int)
  | strv (s : String)
  | obj (fields : Profile)
  deriving DecidableEq, Repr

/-- The guard of markAuthenticated: profile must be truthy and of object
type.  null and undefined are falsy; strings, numbers and booleans fail
the typeof check (a truthy non-object is equally rejected). -/
def isValidProfile : JsValue → Bool
  | .obj _ => true
  | _ => false

/-- JSON.stringify of a string (field values are plain strings here). -/
def quoteJson (s : String) : String := "\"" ++ s ++ "\""

def jsonStringifyFields : Profile → String
  | [] => ""
  | [(k, v)] => quoteJson k ++ ":" ++ quoteJson v
  | (k, v) :: rest => quoteJson k ++ ":" ++ quoteJson v ++ "," ++ jsonStringifyFields rest

/-- JSON.stringify of a profile object, the stable serialization used as
the lastAuthenticatedSignature. -/
def jsonStringify (p : Profile) : String :=
  "\x7b" ++ jsonStringifyFields p ++ "\x7d"

inductive AuthStatus where
  | unauthenticated
  | authenticated
  deriving DecidableEq, Repr

/-- The state record of createAuthHeader: status plus profile. -/
structure AuthState where
  status : AuthStatus
  profile : Option Profile
  deriving DecidableEq, Repr

/-- The four host-element attributes of ATTRIBUTE_MAP reflected from the
profile (data-user-id, data-user-email, data-user-display,
data-user-avatar-url); none when removed. -/
structure Dataset where
  userId : Option String
  userEmail : Option String
  userDisplay : Option String
  userAvatarUrl : Option String
  deriving DecidableEq, Repr

/-- updateDatasetFromProfile: each mapped attribute is set from the
profile field or removed when the profile is null or lacks the field. -/
def datasetFromProfile : Option Profile → Dataset
  | none => ⟨none, none, none, none⟩
  | some p =>
      ⟨p.lookup ("user_id"), p.lookup ("user_email"),
       p.lookup ("display"), p.lookup ("avatar_url")⟩

/-- Events dispatched on the host element by the controller. -/
inductive AuthEvent where
  | authenticated (profile : Profile)
  | unauthenticated
  | error (code : String) (message : Option String) (status : Option Nat)
  deriving DecidableEq, Repr

/-- The configuration options of createAuthHeader after merging with
DEFAULT_OPTIONS. -/
structure AuthOptions where
  tauthUrl : String := ""
  tauthLoginPath : String := "/auth/google"
  tauthLogoutPath : String := "/auth/logout"
  tauthNoncePath : String := "/auth/nonce"
  googleClientId : String := ""
  tenantId : String := ""
  deriving DecidableEq, Repr

/-- The closure state of one createAuthHeader controller instance.
nonceInFlight holds the identity of the pending nonceRequestPromise,
nextPromiseId supplies fresh promise identities. -/
structure CtrlState where
  options : AuthOptions
  state : AuthState
  pendingProfile : Option Profile
  hasEmittedUnauthenticated : Bool
  lastAuthenticatedSignature : Option String
  pendingNonceToken : Option String
  nonceInFlight : Option Nat
  nextPromiseId : Nat
  dataset : Dataset
  deriving DecidableEq, Repr

/-- The argument object of markUnauthenticated; absent fields default to
true (parameters.emit is compared with false, likewise prompt). -/
structure UnauthConfig where
  emit : Bool := true
  prompt : Bool := true
  deriving DecidableEq, Repr

/-- markUnauthenticated: clears the pending nonce token, resets state to
unauthenticated with no profile, clears the signature and the reflected
dataset, and dispatches the unauthenticated event exactly when emit is
requested and either the state was not already unauthenticated-with-null
or no unauthenticated event has been emitted yet for this instance. -/
def markUnauthenticated (s : CtrlState) (config : UnauthConfig) :
    CtrlState × List AuthEvent :=
  let shouldEmit := config.emit &&
    ((s.state.status != AuthStatus.unauthenticated) ||
     (s.state.profile != none) ||
     (!s.hasEmittedUnauthenticated))
  let s1 : CtrlState :=
    { s with
      pendingNonceToken := none,
      state := { status := AuthStatus.unauthenticated, profile := none },
      lastAuthenticatedSignature := none,
      dataset := datasetFromProfile none,
      hasEmittedUnauthenticated :=
        if shouldEmit then true else s.hasEmittedUnauthenticated }
  (s1, if shouldEmit then [AuthEvent.unauthenticated] else [])

/-- markAuthenticated: an invalid (falsy or non-object) profile emits the
invalid_profile error and forces unauthenticated state (prompt false); a
valid profile authenticates, records the serialized signature, clears the
pending nonce token, reflects the dataset, and dispatches the
authenticated event unless the state was already authenticated with an
identical signature. -/
def markAuthenticated (s : CtrlState) (profile : JsValue) :
    CtrlState × List AuthEvent :=
  match profile with
  | .obj p =>
      let signature := jsonStringify p
      let shouldEmit :=
        (s.state.status != AuthStatus.authenticated) ||
        (s.lastAuthenticatedSignature != some signature)
      let s1 : CtrlState :=
        { s with
          state := { status := AuthStatus.authenticated, profile := some p },
          lastAuthenticatedSignature := some signature,
          hasEmittedUnauthenticated := false,
          pendingNonceToken := none,
          dataset := datasetFromProfile (some p) }
      (s1, if shouldEmit then [AuthEvent.authenticated p] else [])
  | _ =>
      let r := markUnauthenticated s { prompt := false }
      (r.1,
       AuthEvent.error ("mpr-ui.auth.invalid_profile")
         (some ("markAuthenticated called without valid profile")) none :: r.2)

/-- emitError: the auth error event carries the code merged with the
extra detail fields. -/
def emitError (code : String) (message : Option String) (status : Option Nat) :
    AuthEvent :=
  AuthEvent.error code message status

/-- Whitespace removed by the trim call on id options. -/
def isTrimmableChar (c : Char) : Bool :=
  c == ' ' || c == '\t' || c == '\n' || c == '\r'

/-- value.trim: leading and trailing whitespace removed. -/
def trimChars (s : String) : String :=
  String.mk
    (((s.data.dropWhile isTrimmableChar).reverse.dropWhile isTrimmableChar).reverse)

/-- normalizeGoogleSiteId on a string value: trim, empty becomes null. -/
def normalizeGoogleSiteId (value : String) : Option String :=
  let trimmed := trimChars value
  if trimmed = "" then none else some trimmed

/-- normalizeTenantId on a string value: trim, empty becomes null. -/
def normalizeTenantId (value : String) : Option String :=
  let trimmed := trimChars value
  if trimmed = "" then none else some trimmed

/-- joinUrl: concatenates base URL and path, collapsing or inserting one
slash at the seam; an empty base yields the path alone and conversely. -/
def joinUrl (tauthUrl path : String) : String :=
  if tauthUrl = "" then path
  else if path = "" then tauthUrl
  else if tauthUrl.endsWith ("/") && path.startsWith ("/") then
    tauthUrl ++ path.drop 1
  else if !tauthUrl.endsWith ("/") && !path.startsWith ("/") then
    tauthUrl ++ "/" ++ path
  else tauthUrl ++ path

/-- JavaScript object property assignment on an association list:
overwrite an existing key in place, otherwise append. -/
def setKey (assoc : List (String × String)) (key value : String) :
    List (String × String) :=
  if assoc.any (fun kv => kv.1 == key) then
    assoc.map (fun kv => if kv.1 == key then (key, value) else kv)
  else assoc ++ [(key, value)]

/-- withTenantHeader: copies the headers and sets X-TAuth-Tenant to the
configured tenant id. -/
def withTenantHeader (tenantId : String) (headers : List (String × String)) :
    List (String × String) :=
  setKey headers ("X-TAuth-Tenant") tenantId

/-- One outbound fetch request of the fallback transport. -/
structure HttpRequest where
  url : String
  httpMethod : String
  credentialsInclude : Bool
  headers : List (String × String)
  body : Option String
  deriving DecidableEq, Repr

/-- The request issued by requestNonceTokenWithFetch. -/
def requestNonceTokenWithFetchRequest (o : AuthOptions) : HttpRequest :=
  { url := joinUrl o.tauthUrl o.tauthNoncePath,
    httpMethod := "POST",
    credentialsInclude := true,
    headers := withTenantHeader o.tenantId
      [("Content-Type", "application/json"),
       ("X-Requested-With", "XMLHttpRequest")],
    body := none }

/-- The request issued by exchangeCredentialWithFetch. -/
def exchangeCredentialWithFetchRequest (o : AuthOptions)
    (credential nonceToken : String) : HttpRequest :=
  { url := joinUrl o.tauthUrl o.tauthLoginPath,
    httpMethod := "POST",
    credentialsInclude := true,
    headers := withTenantHeader o.tenantId
      [("Content-Type", "application/json"),
       ("X-Requested-With", "XMLHttpRequest")],
    body := some (jsonStringify
      [("google_id_token", credential), ("nonce_token", nonceToken)]) }

/-- The request issued by performLogoutWithFetch. -/
def performLogoutWithFetchRequest (o : AuthOptions) : HttpRequest :=
  { url := joinUrl o.tauthUrl o.tauthLogoutPath,
    httpMethod := "POST",
    credentialsInclude := true,
    headers := withTenantHeader o.tenantId
      [("X-Requested-With", "XMLHttpRequest")],
    body := none }

/-- Presence of the optional host helper functions on the global object. -/
structure Env where
  hasInitAuthClient : Bool
  hasRequestNonce : Bool
  hasExchangeGoogleCredential : Bool
  hasLogout : Bool
  deriving DecidableEq, Repr

/-- requestNonceToken: when a nonceRequestPromise is already in flight it
is returned unchanged and no new work is issued; otherwise a fresh
promise identity is recorded as in flight and new issuance work (helper
call or fetch) starts.  The returned Bool reports whether fresh work was
issued. -/
def requestNonceToken (s : CtrlState) : CtrlState × Nat × Bool :=
  match s.nonceInFlight with
  | some pid => (s, pid, false)
  | none =>
      ({ s with nonceInFlight := some s.nextPromiseId,
                nextPromiseId := s.nextPromiseId + 1 },
       s.nextPromiseId, true)

/-- The finally handler of requestNonceToken: when the in-flight request
settles (fulfilled or rejected) the reference is cleared. -/
def settleNonceRequest (s : CtrlState) : CtrlState :=
  { s with nonceInFlight := none }

/-- prepareGooglePromptNonce, synchronous part: reuse a pending token or
start requestNonceToken.  The Bool reports whether fresh issuance work
started. -/
def prepareGooglePromptNonce (s : CtrlState) : CtrlState × Bool :=
  match s.pendingNonceToken with
  | some _ => (s, false)
  | none =>
      let r := requestNonceToken s
      (r.1, r.2.2)

/-- Completion of the nonce priming chain with a token: the finally
handler clears the in-flight reference and configureGoogleNonce stores
the token as pending for the next sign-in attempt. -/
def primeNonceResolved (s : CtrlState) (token : String) :
    CtrlState × List AuthEvent :=
  ({ s with nonceInFlight := none, pendingNonceToken := some token }, [])

/-- Failure of the nonce priming chain: the in-flight reference is
cleared and primeGoogleNonce emits the nonce_failed error. -/
def primeNonceFailed (s : CtrlState) (message : String) (status : Option Nat) :
    CtrlState × List AuthEvent :=
  ({ s with nonceInFlight := none },
   [emitError ("mpr-ui.auth.nonce_failed") (some message) status])

/-- Object.assign of the hook profile over the pending profile fragment:
fields of the second argument win on conflict, new fields append. -/
def objAssign (base override : Profile) : Profile :=
  base.map (fun kv =>
    match override.lookup kv.1 with
    | some v => (kv.1, v)
    | none => kv) ++
  override.filter (fun kv => (base.lookup kv.1).isNone)

/-- Observable outcome of one bootstrapSession invocation when the host
initAuthClient hook is installed: the hook calls onAuthenticated with a
profile object or null, calls onUnauthenticated, resolves without calling
back, or rejects. -/
inductive BootstrapOutcome where
  | hookAuthenticated (profile : Option Profile)
  | hookUnauthenticated
  | hookResolvedSilently
  | hookRejected (message : String)
  deriving DecidableEq, Repr

/-- bootstrapSession: with no host hook, mark unauthenticated silently.
With a hook, onAuthenticated resolves the profile as the hook profile
merged over the pending fragment (hook fields winning) and authenticates;
onUnauthenticated clears the fragment and marks unauthenticated; a hook
rejection emits bootstrap_failed and leaves the state alone. -/
def bootstrapSession (s : CtrlState) (env : Env) (bo : BootstrapOutcome) :
    CtrlState × List AuthEvent :=
  if !env.hasInitAuthClient then
    markUnauthenticated s { emit := false, prompt := false }
  else
    match bo with
    | .hookAuthenticated profile =>
        let resolvedProfile : JsValue :=
          match profile, s.pendingProfile with
          | some hp, some pp => JsValue.obj (objAssign pp hp)
          | some hp, none => JsValue.obj hp
          | none, some pp => JsValue.obj pp
          | none, none => JsValue.nullv
        markAuthenticated { s with pendingProfile := none } resolvedProfile
    | .hookUnauthenticated =>
        markUnauthenticated { s with pendingProfile := none } { prompt := true }
    | .hookResolvedSilently => (s, [])
    | .hookRejected message =>
        (s, [emitError ("mpr-ui.auth.bootstrap_failed") (some message) none])

/-- The credential response object handed to handleCredential; the
credential field is a string, the empty string standing for an absent or
empty (falsy) credential. -/
structure CredentialResponse where
  credential : String
  deriving DecidableEq, Repr

/-- The fail-fast guard of handleCredential: no response object at all,
or a falsy credential field. -/
def credentialMissing : Option CredentialResponse → Bool
  | none => true
  | some r => r.credential == ""

/-- Outcome of the credential exchange transport (host helper with fetch
fallback), including a rejection of the nonce promise it chains on. -/
inductive ExchangeOutcome where
  | success (profile : JsValue)
  | failure (message : String) (status : Option Nat)
  deriving DecidableEq, Repr

/-- The state effect of exchangeCredential around the transport: a
pending nonce token is consumed exactly once; otherwise requestNonceToken
issues or joins the in-flight request, which has settled (clearing the
reference) by the time the exchange outcome is known. -/
def exchangeCredentialConsumeNonce (s : CtrlState) : CtrlState :=
  match s.pendingNonceToken with
  | some _ => { s with pendingNonceToken := none }
  | none =>
      let r := requestNonceToken s
      settleNonceRequest r.1

/-- handleCredential: fails fast with missing_credential on an absent or
empty credential and marks unauthenticated; otherwise runs the exchange,
authenticating on success and emitting exchange_failed with the failure
status then marking unauthenticated on failure.  The total return type
models the promise always resolving (with the profile on success, with
undefined otherwise); the error events come before the state-change
event of the same call. -/
def handleCredential (s : CtrlState) (response : Option CredentialResponse)
    (outcome : ExchangeOutcome) :
    CtrlState × List AuthEvent × Option JsValue :=
  if credentialMissing response then
    let r := markUnauthenticated s { prompt := true }
    (r.1, emitError ("mpr-ui.auth.missing_credential") none none :: r.2, none)
  else
    let s1 := exchangeCredentialConsumeNonce s
    match outcome with
    | .success profile =>
        let r := markAuthenticated s1 profile
        (r.1, r.2, some profile)
    | .failure message status =>
        let r := markUnauthenticated s1 { prompt := true }
        (r.1, emitError ("mpr-ui.auth.exchange_failed") (some message) status :: r.2,
         none)

/-- A transport-level failure of a fallback fetch. -/
structure HttpError where
  message : String
  status : Option Nat
  deriving DecidableEq, Repr

/-- Observable outcome of the optional host logout helper: it resolves,
rejects with the missing-base-configuration marker (tauth.missing_base_url
in the message), or rejects with any other error. -/
inductive LogoutHelperOutcome where
  | resolves
  | rejectsMissingBase
  | rejectsOther (e : HttpError)
  deriving DecidableEq, Repr

/-- The value performLogout resolves with. -/
inductive LogoutResult where
  | helperValue
  | fetchResponse (status : Nat)
  | nullValue
  deriving DecidableEq, Repr

/-- performLogout: with the host helper, a resolution is passed through,
a rejection carrying the missing-base marker falls back to the logout
fetch (whose own rejection propagates), and any other rejection resolves
with null.  Without the helper, the logout fetch runs and any failure is
swallowed into a null resolution.  Except.error models a rejected
promise. -/
def performLogout (env : Env) (ho : LogoutHelperOutcome)
    (fetchResult : Except HttpError Nat) : Except HttpError LogoutResult :=
  if env.hasLogout then
    match ho with
    | .resolves => Except.ok LogoutResult.helperValue
    | .rejectsMissingBase =>
        match fetchResult with
        | .ok st => Except.ok (LogoutResult.fetchResponse st)
        | .error e => Except.error e
    | .rejectsOther _ => Except.ok LogoutResult.nullValue
  else
    match fetchResult with
    | .ok st => Except.ok (LogoutResult.fetchResponse st)
    | .error _ => Except.ok LogoutResult.nullValue

/-- signOut: awaits performLogout (a rejection aborts the continuation),
then clears the pending profile fragment and either marks unauthenticated
(no session hook installed) or re-runs bootstrapSession. -/
def signOut (s : CtrlState) (env : Env) (ho : LogoutHelperOutcome)
    (fetchResult : Except HttpError Nat) (bo : BootstrapOutcome) :
    Except HttpError (CtrlState × List AuthEvent) :=
  match performLogout env ho fetchResult with
  | .error e => Except.error e
  | .ok _ =>
      let s1 := { s with pendingProfile := none }
      if !env.hasInitAuthClient then
        Except.ok (markUnauthenticated s1 { prompt := true })
      else
        Except.ok (bootstrapSession s1 env bo)

/-- The state of the closure variables right after the var declarations
of createAuthHeader. -/
def initialCtrlState (o : AuthOptions) : CtrlState :=
  { options := o,
    state := { status := AuthStatus.unauthenticated, profile := none },
    pendingProfile := none,
    hasEmittedUnauthenticated := false,
    lastAuthenticatedSignature := none,
    pendingNonceToken := none,
    nonceInFlight := none,
    nextPromiseId := 0,
    dataset := datasetFromProfile none }

/-- The synchronous result of createAuthHeader: the controller state, the
events dispatched during construction, and how many nonce issuance
requests (helper call or fetch) construction started. -/
structure ConstructResult where
  ctrl : CtrlState
  events : List AuthEvent
  nonceRequestsStarted : Nat
  deriving DecidableEq, Repr

instance : Inhabited ConstructResult :=
  ⟨{ ctrl := initialCtrlState {}, events := [], nonceRequestsStarted := 0 }⟩

/-- createAuthHeader: validates the google client id and tenant id
(construction throws on a missing one), then runs markUnauthenticated
with emit false, bootstrapSession, and primeGoogleNonce (which starts
nonce issuance through prepareGooglePromptNonce). -/
def createAuthHeader (env : Env) (rawOptions : AuthOptions)
    (bo : BootstrapOutcome) : Except String ConstructResult :=
  match normalizeGoogleSiteId rawOptions.googleClientId with
  | none => Except.error ("mpr-ui.google_site_id_required")
  | some siteId =>
      match normalizeTenantId rawOptions.tenantId with
      | none => Except.error ("mpr-ui.tenant_id_required")
      | some tenantId =>
          let o := { rawOptions with googleClientId := siteId, tenantId := tenantId }
          let r1 := markUnauthenticated (initialCtrlState o)
            { emit := false, prompt := false }
          let r2 := bootstrapSession r1.1 env bo
          let r3 := prepareGooglePromptNonce r2.1
          Except.ok
            { ctrl := r3.1,
              events := r1.2 ++ r2.2,
              nonceRequestsStarted := if r3.2 then 1 else 0 }

instance {ε α : Type} [DecidableEq ε] [DecidableEq α] :
    DecidableEq (Except ε α) := fun a b =>
  match a, b with
  | .ok x, .ok y =>
      if h : x = y then .isTrue (by rw [h]) else .isFalse (by simp [h])
  | .error x, .error y =>
      if h : x = y then .isTrue (by rw [h]) else .isFalse (by simp [h])
  | .ok _, .error _ => .isFalse (by simp)
  | .error _, .ok _ => .isFalse (by simp)

/-- The operations a host or widget can drive a constructed controller
through, each asynchronous one parameterised by its observable outcome. -/
inductive Op where
  | opMarkAuthenticated (profile : JsValue)
  | opMarkUnauthenticated (config : UnauthConfig)
  | opHandleCredential (response : Option CredentialResponse)
      (outcome : ExchangeOutcome)
  | opBootstrapSession (bo : BootstrapOutcome)
  | opSignOut (ho : LogoutHelperOutcome) (fetchResult : Except HttpError Nat)
      (bo : BootstrapOutcome)
  | opPrimeNonceResolved (token : String)
  | opPrimeNonceFailed (message : String) (status : Option Nat)
  deriving DecidableEq, Repr

/-- One operation applied to a controller state; a rejected signOut
leaves the state untouched. -/
def applyOp (env : Env) (s : CtrlState) (op : Op) : CtrlState × List AuthEvent :=
  match op with
  | .opMarkAuthenticated p => markAuthenticated s p
  | .opMarkUnauthenticated c => markUnauthenticated s c
  | .opHandleCredential response outcome =>
      let r := handleCredential s response outcome
      (r.1, r.2.1)
  | .opBootstrapSession bo => bootstrapSession s env bo
  | .opSignOut ho fetchResult bo =>
      match signOut s env ho fetchResult bo with
      | .ok r => r
      | .error _ => (s, [])
  | .opPrimeNonceResolved token => primeNonceResolved s token
  | .opPrimeNonceFailed message status => primeNonceFailed s message status

/-- A sequence of operations run from a state. -/
def runOps (env : Env) (s : CtrlState) (ops : List Op) : CtrlState :=
  ops.foldl (fun st op => (applyOp env st op).1) s

/-- The AuthState invariant of the store: a profile is held exactly in
authenticated status. -/
def profileStatusInvariant (s : CtrlState) : Prop :=
  s.state.profile ≠ none ↔ s.state.status = AuthStatus.authenticated

instance (s : CtrlState) : Decidable (profileStatusInvariant s) := by
  unfold profileStatusInvariant; infer_instance

/-- N successive markUnauthenticated calls with the default (empty)
argument, collecting all dispatched events in order. -/
def iterateMarkUnauth (s : CtrlState) : Nat → CtrlState × List AuthEvent
  | 0 => (s, [])
  | n + 1 =>
      let r := markUnauthenticated s {}
      let rest := iterateMarkUnauth r.1 n
      (rest.1, r.2 ++ rest.2)

/-- The fields of the mpr-login-button element a nonce continuation can
read or mutate. -/
structure LoginButtonState where
  mprConnected : Bool
  renderSequenceNumber : Nat
  googleCleanupInstalled : Bool
  buttonMounted : Bool
  googleErrorAttr : Option String
  deriving DecidableEq, Repr

/-- Events dispatched on the login button element. -/
inductive LoginEvent where
  | loginError (code : String) (message : Option String)
  deriving DecidableEq, Repr

/-- The start of one render pass of the login button: the render sequence
number is incremented and captured by the continuations of this pass. -/
def beginRender (st : LoginButtonState) : LoginButtonState × Nat :=
  ({ st with renderSequenceNumber := st.renderSequenceNumber + 1 },
   st.renderSequenceNumber + 1)

/-- handleNoncePrepared: the fulfilled continuation of prepareGoogleNonce
in renderLoginButton.  When the element is disconnected or the render
sequence number advanced past the captured one it returns without any
mutation or event; otherwise it mounts the Google button and installs the
cleanup handle. -/
def handleNoncePrepared (st : LoginButtonState) (renderSequenceNumber : Nat) :
    LoginButtonState × List LoginEvent :=
  if !st.mprConnected || (st.renderSequenceNumber != renderSequenceNumber) then
    (st, [])
  else
    ({ st with googleCleanupInstalled := true, buttonMounted := true }, [])

/-- handleNonceFailure: the rejected continuation of prepareGoogleNonce.
Under the same staleness guard it is a silent no-op; otherwise it sets
the nonce-failed error attribute and dispatches the login error event. -/
def handleNonceFailure (st : LoginButtonState) (renderSequenceNumber : Nat)
    (message : String) : LoginButtonState × List LoginEvent :=
  if !st.mprConnected || (st.renderSequenceNumber != renderSequenceNumber) then
    (st, [])
  else
    ({ st with googleErrorAttr := some ("nonce-failed") },
     [LoginEvent.loginError ("mpr-ui.auth.nonce_failed") (some message)])

/-- A concrete environment with none of the optional host helpers. -/
def envNoHooks : Env := ⟨false, false, false, false⟩

/-- The concrete options of the construction scenario of the spec. -/
def scenarioOptions : AuthOptions := { googleClientId := "abc", tenantId := "t1" }

/-- The controller constructed in the scenario (no hooks, so the
bootstrap outcome argument is irrelevant). -/
def scenarioConstruct : ConstructResult :=
  (createAuthHeader envNoHooks scenarioOptions
      BootstrapOutcome.hookResolvedSilently).toOption.getD default

/-- A concrete profile used by witnesses. -/
def witnessProfile : Profile := [("user_id", "1"), ("display", "Ann")]

section Lemmas

/-- markUnauthenticated always leaves the store unauthenticated with no
profile. -/
theorem markUnauthenticated_state (s : CtrlState) (c : UnauthConfig) :
    ((markUnauthenticated s c).1).state =
      { status := AuthStatus.unauthenticated, profile := none } := rfl

theorem markUnauthenticated_fst (s : CtrlState) (c : UnauthConfig) :
    (markUnauthenticated s c).1 =
      { s with
        pendingNonceToken := none,
        state := { status := AuthStatus.unauthenticated, profile := none },
        lastAuthenticatedSignature := none,
        dataset := datasetFromProfile none,
        hasEmittedUnauthenticated :=
          if c.emit &&
              ((s.state.status != AuthStatus.unauthenticated) ||
               (s.state.profile != none) || (!s.hasEmittedUnauthenticated))
            then true else s.hasEmittedUnauthenticated } := rfl

/-- With emit false no unauthenticated event is dispatched. -/
theorem markUnauthenticated_noEmit (s : CtrlState) (b : Bool) :
    (markUnauthenticated s { emit := false, prompt := b }).2 = [] := rfl

/-- The events of markUnauthenticated are at most one unauthenticated
notification. -/
theorem markUnauthenticated_events (s : CtrlState) (c : UnauthConfig) :
    (markUnauthenticated s c).2 = [AuthEvent.unauthenticated] ∨
    (markUnauthenticated s c).2 = [] := by
  simp only [markUnauthenticated]
  split <;> simp

theorem profileStatusInvariant_markUnauthenticated (s : CtrlState)
    (c : UnauthConfig) : profileStatusInvariant (markUnauthenticated s c).1 := by
  simp [profileStatusInvariant, markUnauthenticated_state]

theorem profileStatusInvariant_markAuthenticated (s : CtrlState) (v : JsValue) :
    profileStatusInvariant (markAuthenticated s v).1 := by
  cases v <;>
    simp [markAuthenticated, profileStatusInvariant, markUnauthenticated_state]

/-- prepareGooglePromptNonce does not change the auth state record. -/
theorem prepareGooglePromptNonce_state (s : CtrlState) :
    ((prepareGooglePromptNonce s).1).state = s.state := by
  unfold prepareGooglePromptNonce requestNonceToken
  cases h : s.pendingNonceToken <;> cases h2 : s.nonceInFlight <;> simp [h, h2]

/-- exchangeCredentialConsumeNonce does not change the auth state
record. -/
theorem exchangeCredentialConsumeNonce_state (s : CtrlState) :
    (exchangeCredentialConsumeNonce s).state = s.state := by
  unfold exchangeCredentialConsumeNonce requestNonceToken settleNonceRequest
  cases h : s.pendingNonceToken <;> cases h2 : s.nonceInFlight <;> simp [h, h2]

theorem profileStatusInvariant_bootstrapSession (s : CtrlState) (env : Env)
    (bo : BootstrapOutcome) (hs : profileStatusInvariant s) :
    profileStatusInvariant (bootstrapSession s env bo).1 := by
  unfold bootstrapSession
  cases env.hasInitAuthClient with
  | false => simpa using profileStatusInvariant_markUnauthenticated _ _
  | true =>
      cases bo with
      | hookAuthenticated profile =>
          simpa using profileStatusInvariant_markAuthenticated _ _
      | hookUnauthenticated =>
          simpa using profileStatusInvariant_markUnauthenticated _ _
      | hookResolvedSilently => simpa using hs
      | hookRejected message => simpa using hs

theorem profileStatusInvariant_applyOp (env : Env) (s : CtrlState) (op : Op)
    (hs : profileStatusInvariant s) :
    profileStatusInvariant (applyOp env s op).1 := by
  cases op with
  | opMarkAuthenticated p => exact profileStatusInvariant_markAuthenticated _ _
  | opMarkUnauthenticated c => exact profileStatusInvariant_markUnauthenticated _ _
  | opHandleCredential response outcome =>
      show profileStatusInvariant (handleCredential s response outcome).1
      unfold handleCredential
      cases h : credentialMissing response with
      | true => simpa using profileStatusInvariant_markUnauthenticated _ _
      | false =>
          cases outcome with
          | success profile =>
              simpa using profileStatusInvariant_markAuthenticated _ _
          | failure message status =>
              simpa using profileStatusInvariant_markUnauthenticated _ _
  | opBootstrapSession bo =>
      exact profileStatusInvariant_bootstrapSession _ _ _ hs
  | opSignOut ho fetchResult bo =>
      show profileStatusInvariant
        (match signOut s env ho fetchResult bo with
         | .ok r => r | .error _ => (s, [])).1
      unfold signOut
      cases performLogout env ho fetchResult with
      | error e => simpa using hs
      | ok v =>
          cases henv : env.hasInitAuthClient with
          | false => simpa using profileStatusInvariant_markUnauthenticated _ _
          | true =>
              have : profileStatusInvariant
                  ({ s with pendingProfile := none } : CtrlState) := hs
              simpa [henv] using
                profileStatusInvariant_bootstrapSession
                  { s with pendingProfile := none } env bo this
  | opPrimeNonceResolved token => simpa [primeNonceResolved] using hs
  | opPrimeNonceFailed message status => simpa [primeNonceFailed] using hs

theorem profileStatusInvariant_runOps (env : Env) (ops : List Op) :
    ∀ s : CtrlState, profileStatusInvariant s →
      profileStatusInvariant (runOps env s ops) := by
  induction ops with
  | nil => intro s hs; simpa [runOps] using hs
  | cons op rest ih =>
      intro s hs
      have h1 : runOps env s (op :: rest) = runOps env (applyOp env s op).1 rest := rfl
      rw [h1]
      exact ih _ (profileStatusInvariant_applyOp env s op hs)

/-- Construction with no session hook: no events, one nonce issuance
started, and the fresh unauthenticated state with the first-notification
flag still clear. -/
theorem createAuthHeader_noHook (env : Env) (o : AuthOptions)
    (bo : BootstrapOutcome) (r : ConstructResult)
    (henv : env.hasInitAuthClient = false)
    (h : createAuthHeader env o bo = Except.ok r) :
    r.events = [] ∧ r.nonceRequestsStarted = 1 ∧
    r.ctrl.state.status = AuthStatus.unauthenticated ∧
    r.ctrl.state.profile = none ∧
    r.ctrl.hasEmittedUnauthenticated = false := by
  unfold createAuthHeader at h
  cases hg : normalizeGoogleSiteId o.googleClientId with
  | none => rw [hg] at h; exact absurd h (by simp)
  | some siteId =>
      cases ht : normalizeTenantId o.tenantId with
      | none => rw [hg, ht] at h; exact absurd h (by simp)
      | some tenantId =>
          rw [hg, ht] at h
          simp only [Except.ok.injEq] at h
          subst h
          simp [bootstrapSession, henv, markUnauthenticated, initialCtrlState,
                prepareGooglePromptNonce, requestNonceToken]

/-- Any successful construction satisfies the store invariant. -/
theorem createAuthHeader_invariant (env : Env) (o : AuthOptions)
    (bo : BootstrapOutcome) (r : ConstructResult)
    (h : createAuthHeader env o bo = Except.ok r) :
    profileStatusInvariant r.ctrl := by
  unfold createAuthHeader at h
  cases hg : normalizeGoogleSiteId o.googleClientId with
  | none => rw [hg] at h; exact absurd h (by simp)
  | some siteId =>
      cases ht : normalizeTenantId o.tenantId with
      | none => rw [hg, ht] at h; exact absurd h (by simp)
      | some tenantId =>
          rw [hg, ht] at h
          simp only [Except.ok.injEq] at h
          subst h
          have h1 := profileStatusInvariant_markUnauthenticated
            (initialCtrlState
              { o with googleClientId := siteId, tenantId := tenantId })
            { emit := false, prompt := false }
          have h2 := profileStatusInvariant_bootstrapSession _ env bo h1
          simpa [profileStatusInvariant, prepareGooglePromptNonce_state] using h2

end Lemmas

/-- C1, counterexample: constructing the controller with clientId abc and
tenantId t1 and no host session-restore hook dispatches zero
unauthenticated events (not exactly one: both construction-time
markUnauthenticated calls pass emit false) and starts one nonce issuance
request before any credential arrives (primeGoogleNonce, not zero). -/
theorem mprC1_counterexample :
    (createAuthHeader (Env.mk false false false false)
        { googleClientId := "abc", tenantId := "t1" }
        BootstrapOutcome.hookResolvedSilently).toOption.map
      (fun r => (r.events.count AuthEvent.unauthenticated,
                 r.nonceRequestsStarted)) =
    some (0, 1) := by decide

/-- C1, amended: for a controller constructed with a valid clientId and
tenantId when no host session-restore hook is installed, construction
dispatches no event at all (it marks unauthenticated silently, with emit
false), leaves the store unauthenticated with a null profile and the
first-notification flag clear, and immediately starts exactly one nonce
issuance request before any credential arrives. -/
theorem mprC1_amended (env : Env) (o : AuthOptions) (bo : BootstrapOutcome)
    (r : ConstructResult) (henv : env.hasInitAuthClient = false)
    (h : createAuthHeader env o bo = Except.ok r) :
    r.events = [] ∧ r.nonceRequestsStarted = 1 ∧
    r.ctrl.state.status = AuthStatus.unauthenticated ∧
    r.ctrl.state.profile = none ∧
    r.ctrl.hasEmittedUnauthenticated = false :=
  createAuthHeader_noHook env o bo r henv h

/-- C1 witness: the amended claim evaluated at the concrete scenario. -/
theorem mprC1_amended_witness :
    scenarioConstruct.events = [] ∧
    scenarioConstruct.nonceRequestsStarted = 1 ∧
    scenarioConstruct.ctrl.state.status = AuthStatus.unauthenticated ∧
    scenarioConstruct.ctrl.state.profile = none ∧
    scenarioConstruct.ctrl.hasEmittedUnauthenticated = false :=
  mprC1_amended envNoHooks scenarioOptions BootstrapOutcome.hookResolvedSilently
    scenarioConstruct rfl (by rfl)

/-- C2: for every constructed controller and every sequence of completed
operations (markAuthenticated, markUnauthenticated, handleCredential,
bootstrapSession, signOut, and the nonce priming continuations), the
store holds a non-null profile exactly when its status is authenticated;
no error path leaves it authenticated with an invalid profile. -/
theorem mprC2_profileIffAuthenticated (env : Env) (o : AuthOptions)
    (bo : BootstrapOutcome) (r : ConstructResult) (ops : List Op)
    (h : createAuthHeader env o bo = Except.ok r) :
    profileStatusInvariant (runOps env r.ctrl ops) :=
  profileStatusInvariant_runOps env ops r.ctrl
    (createAuthHeader_invariant env o bo r h)

/-- C2 witness: the invariant evaluated after a concrete operation
sequence touching every operation of the claim. -/
theorem mprC2_profileIffAuthenticated_witness :
    profileStatusInvariant (runOps envNoHooks scenarioConstruct.ctrl
      [Op.opHandleCredential (some { credential := "tok1" })
         (ExchangeOutcome.success (JsValue.obj witnessProfile)),
       Op.opMarkAuthenticated (JsValue.obj witnessProfile),
       Op.opBootstrapSession BootstrapOutcome.hookResolvedSilently,
       Op.opSignOut LogoutHelperOutcome.resolves
         (Except.error { message := "net down", status := some 502 })
         BootstrapOutcome.hookResolvedSilently,
       Op.opMarkUnauthenticated {},
       Op.opHandleCredential (some { credential := "tok2" })
         (ExchangeOutcome.failure ("exchange down") (some 500)),
       Op.opMarkAuthenticated (JsValue.strv "bad"),
       Op.opPrimeNonceResolved ("nonce-1"),
       Op.opPrimeNonceFailed ("nonce down") (some 503)]) :=
  mprC2_profileIffAuthenticated envNoHooks scenarioOptions
    BootstrapOutcome.hookResolvedSilently scenarioConstruct _ (by rfl)

/-- C3: from any store state not already authenticated with the identical
serialized profile, marking authenticated twice with the same profile
dispatches the authenticated event exactly once: the first call emits it
and the second call changes no state and emits nothing. -/
theorem mprC3_idempotentMarkAuthenticated (s : CtrlState) (p : Profile)
    (h : ¬ (s.state.status = AuthStatus.authenticated ∧
            s.lastAuthenticatedSignature = some (jsonStringify p))) :
    (markAuthenticated s (JsValue.obj p)).2 = [AuthEvent.authenticated p] ∧
    (markAuthenticated (markAuthenticated s (JsValue.obj p)).1
        (JsValue.obj p)).2 = [] ∧
    (markAuthenticated (markAuthenticated s (JsValue.obj p)).1
        (JsValue.obj p)).1 = (markAuthenticated s (JsValue.obj p)).1 := by
  refine ⟨?_, ?_, rfl⟩
  · have hb : ((s.state.status != AuthStatus.authenticated) ||
        (s.lastAuthenticatedSignature != some (jsonStringify p))) = true := by
      rw [Bool.or_eq_true, bne_iff_ne, bne_iff_ne]
      by_contra hc
      push_neg at hc
      exact h ⟨hc.1, hc.2⟩
    simp [markAuthenticated, hb]
  · simp [markAuthenticated]

/-- C3 witness: the double call evaluated from the freshly constructed
scenario controller with a concrete profile. -/
theorem mprC3_idempotentMarkAuthenticated_witness :
    (markAuthenticated scenarioConstruct.ctrl (JsValue.obj witnessProfile)).2 =
      [AuthEvent.authenticated witnessProfile] ∧
    (markAuthenticated
        (markAuthenticated scenarioConstruct.ctrl (JsValue.obj witnessProfile)).1
        (JsValue.obj witnessProfile)).2 = [] ∧
    (markAuthenticated
        (markAuthenticated scenarioConstruct.ctrl (JsValue.obj witnessProfile)).1
        (JsValue.obj witnessProfile)).1 =
      (markAuthenticated scenarioConstruct.ctrl (JsValue.obj witnessProfile)).1 :=
  mprC3_idempotentMarkAuthenticated scenarioConstruct.ctrl witnessProfile
    (by decide)

/-- After the first default markUnauthenticated call the store stays
unauthenticated with no profile and the first-notification flag set, and
every further default call emits nothing. -/
theorem iterateMarkUnauth_silent (n : Nat) :
    ∀ s : CtrlState, s.state.status = AuthStatus.unauthenticated →
      s.state.profile = none → s.hasEmittedUnauthenticated = true →
      (iterateMarkUnauth s n).2 = [] := by
  induction n with
  | zero => intro s _ _ _; rfl
  | succ m ih =>
      intro s h1 h2 h3
      have hcond : (({} : UnauthConfig).emit &&
          ((s.state.status != AuthStatus.unauthenticated) ||
           (s.state.profile != none) || (!s.hasEmittedUnauthenticated))) = false := by
        simp [h1, h2, h3]
      have hfst := markUnauthenticated_fst s {}
      have hev : (markUnauthenticated s {}).2 = [] := by
        simp only [markUnauthenticated]
        simp [hcond]
      show ((markUnauthenticated s {}).2 ++
        (iterateMarkUnauth (markUnauthenticated s {}).1 m).2) = []
      rw [hev]
      rw [List.nil_append]
      apply ih
      · rw [hfst]
      · rw [hfst]
      · rw [hfst]
        simp [hcond, h3]

/-- C4: on a freshly constructed controller with no session hook (hence
no prior authenticated state and no construction-time notification), N
successive default markUnauthenticated calls dispatch the unauthenticated
event exactly once, on the first call; every re-mark after that first
notification emits nothing. -/
theorem mprC4_unauthenticatedOnce (env : Env) (o : AuthOptions)
    (bo : BootstrapOutcome) (r : ConstructResult) (n : Nat)
    (henv : env.hasInitAuthClient = false)
    (h : createAuthHeader env o bo = Except.ok r) (hn : 1 ≤ n) :
    (iterateMarkUnauth r.ctrl n).2 = [AuthEvent.unauthenticated] := by
  obtain ⟨-, -, h1, h2, h3⟩ := createAuthHeader_noHook env o bo r henv h
  cases n with
  | zero => exact absurd hn (by simp)
  | succ m =>
      have hcond : (({} : UnauthConfig).emit &&
          ((r.ctrl.state.status != AuthStatus.unauthenticated) ||
           (r.ctrl.state.profile != none) ||
           (!r.ctrl.hasEmittedUnauthenticated))) = true := by
        simp [h1, h2, h3]
      have hfst := markUnauthenticated_fst r.ctrl {}
      have hev : (markUnauthenticated r.ctrl {}).2 = [AuthEvent.unauthenticated] := by
        simp only [markUnauthenticated]
        simp [hcond]
      show ((markUnauthenticated r.ctrl {}).2 ++
        (iterateMarkUnauth (markUnauthenticated r.ctrl {}).1 m).2) =
          [AuthEvent.unauthenticated]
      rw [hev]
      have hrest : (iterateMarkUnauth (markUnauthenticated r.ctrl {}).1 m).2 = [] := by
        apply iterateMarkUnauth_silent
        · rw [hfst]
        · rw [hfst]
        · rw [hfst]
          simp [hcond]
      rw [hrest]
      rfl

/-- C4 witness: three successive calls on the scenario controller emit
exactly one unauthenticated event. -/
theorem mprC4_unauthenticatedOnce_witness :
    (iterateMarkUnauth scenarioConstruct.ctrl 3).2 =
      [AuthEvent.unauthenticated] :=
  mprC4_unauthenticatedOnce envNoHooks scenarioOptions
    BootstrapOutcome.hookResolvedSilently scenarioConstruct 3 rfl (by rfl)
    (by decide)

/-- C5: a requestNonceToken call made while a request is in flight
returns the very same pending promise without touching the state or
issuing duplicate work; once that promise settles the in-flight reference
is cleared, so the next call issues fresh work under a fresh promise. -/
theorem mprC5_nonceRequestCoalesced (s : CtrlState) (pid : Nat)
    (h : s.nonceInFlight = some pid) :
    requestNonceToken s = (s, pid, false) ∧
    (settleNonceRequest s).nonceInFlight = none ∧
    (requestNonceToken (settleNonceRequest s)).2.2 = true ∧
    (requestNonceToken (settleNonceRequest s)).2.1 = s.nextPromiseId := by
  refine ⟨?_, rfl, ?_, ?_⟩ <;>
    simp [requestNonceToken, settleNonceRequest, h]

/-- C5 witness: coalescing evaluated on the scenario controller, whose
construction left the priming request in flight. -/
theorem mprC5_nonceRequestCoalesced_witness :
    requestNonceToken scenarioConstruct.ctrl = (scenarioConstruct.ctrl, 0, false) ∧
    (settleNonceRequest scenarioConstruct.ctrl).nonceInFlight = none ∧
    (requestNonceToken (settleNonceRequest scenarioConstruct.ctrl)).2.2 = true ∧
    (requestNonceToken (settleNonceRequest scenarioConstruct.ctrl)).2.1 =
      scenarioConstruct.ctrl.nextPromiseId :=
  mprC5_nonceRequestCoalesced scenarioConstruct.ctrl 0 (by rfl)

/-- C6: for every credential response whose credential field is absent or
empty, handleCredential emits the missing_credential error first, leaves
the store unauthenticated with no profile, never dispatches an
authenticated event, and resolves with no profile (a future sign-in
attempt stays possible). -/
theorem mprC6_missingCredential (s : CtrlState)
    (response : Option CredentialResponse) (outcome : ExchangeOutcome)
    (h : credentialMissing response = true) :
    (handleCredential s response outcome).2.1.head? =
      some (AuthEvent.error ("mpr-ui.auth.missing_credential") none none) ∧
    (handleCredential s response outcome).1.state.status =
      AuthStatus.unauthenticated ∧
    (handleCredential s response outcome).1.state.profile = none ∧
    (∀ p : Profile,
      AuthEvent.authenticated p ∉ (handleCredential s response outcome).2.1) ∧
    (handleCredential s response outcome).2.2 = none := by
  refine ⟨?_, ?_, ?_, ?_, ?_⟩
  · simp [handleCredential, h, emitError]
  · simp [handleCredential, h, markUnauthenticated_state]
  · simp [handleCredential, h, markUnauthenticated_state]
  · intro p
    simp only [handleCredential, h, if_true, emitError]
    rcases markUnauthenticated_events s { prompt := true } with he | he <;>
      simp [he]
  · simp [handleCredential, h]

/-- C6 witness: an empty credential string evaluated on the scenario
controller. -/
theorem mprC6_missingCredential_witness :
    (handleCredential scenarioConstruct.ctrl (some { credential := "" })
        (ExchangeOutcome.success (JsValue.obj witnessProfile))).2.1.head? =
      some (AuthEvent.error ("mpr-ui.auth.missing_credential") none none) ∧
    (handleCredential scenarioConstruct.ctrl (some { credential := "" })
        (ExchangeOutcome.success (JsValue.obj witnessProfile))).1.state.status =
      AuthStatus.unauthenticated ∧
    (handleCredential scenarioConstruct.ctrl (some { credential := "" })
        (ExchangeOutcome.success (JsValue.obj witnessProfile))).1.state.profile =
      none ∧
    (∀ p : Profile,
      AuthEvent.authenticated p ∉
        (handleCredential scenarioConstruct.ctrl (some { credential := "" })
          (ExchangeOutcome.success (JsValue.obj witnessProfile))).2.1) ∧
    (handleCredential scenarioConstruct.ctrl (some { credential := "" })
        (ExchangeOutcome.success (JsValue.obj witnessProfile))).2.2 = none :=
  mprC6_missingCredential scenarioConstruct.ctrl (some { credential := "" })
    (ExchangeOutcome.success (JsValue.obj witnessProfile)) (by decide)

/-- C7: for every credential whose exchange transport fails,
handleCredential catches the failure, emits the exchange_failed error
carrying the failure status first, returns the store to unauthenticated
with no profile, dispatches no authenticated event, and resolves (the
total return type is the promise that never rejects). -/
theorem mprC7_exchangeFailed (s : CtrlState)
    (response : Option CredentialResponse) (message : String)
    (status : Option Nat) (h : credentialMissing response = false) :
    (handleCredential s response
        (ExchangeOutcome.failure message status)).2.1.head? =
      some (AuthEvent.error ("mpr-ui.auth.exchange_failed") (some message) status) ∧
    (handleCredential s response
        (ExchangeOutcome.failure message status)).1.state.status =
      AuthStatus.unauthenticated ∧
    (handleCredential s response
        (ExchangeOutcome.failure message status)).1.state.profile = none ∧
    (∀ p : Profile,
      AuthEvent.authenticated p ∉
        (handleCredential s response
          (ExchangeOutcome.failure message status)).2.1) ∧
    (handleCredential s response
        (ExchangeOutcome.failure message status)).2.2 = none := by
  refine ⟨?_, ?_, ?_, ?_, ?_⟩
  · simp [handleCredential, h, emitError]
  · simp [handleCredential, h, markUnauthenticated_state]
  · simp [handleCredential, h, markUnauthenticated_state]
  · intro p
    simp only [handleCredential, h, if_false, Bool.false_eq_true, emitError]
    rcases markUnauthenticated_events (exchangeCredentialConsumeNonce s)
        { prompt := true } with he | he <;>
      simp [he]
  · simp [handleCredential, h]

/-- C7 witness: a concrete transport failure with status 500 evaluated on
the scenario controller. -/
theorem mprC7_exchangeFailed_witness :
    (handleCredential scenarioConstruct.ctrl (some { credential := "tok1" })
        (ExchangeOutcome.failure ("backend down") (some 500))).2.1.head? =
      some (AuthEvent.error ("mpr-ui.auth.exchange_failed")
              (some ("backend down")) (some 500)) ∧
    (handleCredential scenarioConstruct.ctrl (some { credential := "tok1" })
        (ExchangeOutcome.failure ("backend down") (some 500))).1.state.status =
      AuthStatus.unauthenticated ∧
    (handleCredential scenarioConstruct.ctrl (some { credential := "tok1" })
        (ExchangeOutcome.failure ("backend down") (some 500))).1.state.profile =
      none ∧
    (∀ p : Profile,
      AuthEvent.authenticated p ∉
        (handleCredential scenarioConstruct.ctrl (some { credential := "tok1" })
          (ExchangeOutcome.failure ("backend down") (some 500))).2.1) ∧
    (handleCredential scenarioConstruct.ctrl (some { credential := "tok1" })
        (ExchangeOutcome.failure ("backend down") (some 500))).2.2 = none :=
  mprC7_exchangeFailed scenarioConstruct.ctrl (some { credential := "tok1" })
    ("backend down") (some 500) (by decide)

/-- C8: a nonce continuation of the login button captured at render epoch
E performs no mutation and emits nothing when the widget is disconnected
or its render sequence number no longer equals E, on the fulfilled path
and on the rejected path alike. -/
theorem mprC8_staleContinuationNoOp (st : LoginButtonState) (epoch : Nat)
    (message : String)
    (h : st.mprConnected = false ∨ st.renderSequenceNumber ≠ epoch) :
    handleNoncePrepared st epoch = (st, []) ∧
    handleNonceFailure st epoch message = (st, []) := by
  have hguard : (!st.mprConnected ||
      (st.renderSequenceNumber != epoch)) = true := by
    rcases h with h | h <;> simp [h]
  constructor <;> simp [handleNoncePrepared, handleNonceFailure, hguard]

/-- C8 witness: a continuation from epoch 1 after the widget re-rendered
to epoch 2 is a silent no-op on both paths. -/
theorem mprC8_staleContinuationNoOp_witness :
    handleNoncePrepared
        { mprConnected := true, renderSequenceNumber := 2,
          googleCleanupInstalled := false, buttonMounted := false,
          googleErrorAttr := none } 1 =
      ({ mprConnected := true, renderSequenceNumber := 2,
         googleCleanupInstalled := false, buttonMounted := false,
         googleErrorAttr := none }, []) ∧
    handleNonceFailure
        { mprConnected := true, renderSequenceNumber := 2,
          googleCleanupInstalled := false, buttonMounted := false,
          googleErrorAttr := none } 1 ("slow network") =
      ({ mprConnected := true, renderSequenceNumber := 2,
         googleCleanupInstalled := false, buttonMounted := false,
         googleErrorAttr := none }, []) :=
  mprC8_staleContinuationNoOp
    { mprConnected := true, renderSequenceNumber := 2,
      googleCleanupInstalled := false, buttonMounted := false,
      googleErrorAttr := none } 1 ("slow network") (by decide)

/-- C9: every fallback HTTP request of the controller (nonce issuance,
credential exchange, logout) carries the X-TAuth-Tenant header set to the
configured tenant id. -/
theorem mprC9_tenantHeaderOnFallback (o : AuthOptions)
    (credential nonceToken : String) :
    (requestNonceTokenWithFetchRequest o).headers.lookup ("X-TAuth-Tenant") =
      some o.tenantId ∧
    (exchangeCredentialWithFetchRequest o credential nonceToken).headers.lookup
      ("X-TAuth-Tenant") = some o.tenantId ∧
    (performLogoutWithFetchRequest o).headers.lookup ("X-TAuth-Tenant") =
      some o.tenantId := by
  refine ⟨?_, ?_, ?_⟩ <;>
    simp +decide [requestNonceTokenWithFetchRequest,
      exchangeCredentialWithFetchRequest, performLogoutWithFetchRequest,
      withTenantHeader, setKey, List.lookup]

/-- C10: with no host logout helper installed, performLogout never
rejects: a failing fallback logout fetch is swallowed into a null
resolution, the signOut continuation is independent of the fetch outcome
(so no error event is broadcast for it), and signOut still clears the
pending profile fragment and either marks unauthenticated or re-runs
session bootstrap. -/
theorem mprC10_logoutFailureSwallowed (s : CtrlState) (env : Env)
    (ho : LogoutHelperOutcome) (e : HttpError)
    (fetchResult fetchResult2 : Except HttpError Nat) (bo : BootstrapOutcome)
    (h : env.hasLogout = false) :
    performLogout env ho (Except.error e) = Except.ok LogoutResult.nullValue ∧
    signOut s env ho fetchResult bo = signOut s env ho fetchResult2 bo ∧
    signOut s env ho (Except.error e) bo =
      Except.ok (if env.hasInitAuthClient then
                   bootstrapSession { s with pendingProfile := none } env bo
                 else
                   markUnauthenticated { s with pendingProfile := none }
                     { prompt := true }) := by
  refine ⟨by simp [performLogout, h], ?_, ?_⟩
  · cases fetchResult <;> cases fetchResult2 <;>
      simp [signOut, performLogout, h]
  · cases henv : env.hasInitAuthClient <;>
      simp [signOut, performLogout, h, henv]

/-- C10 witness: a failing logout fetch on the scenario controller (no
hooks installed) still resolves and marks the store unauthenticated. -/
theorem mprC10_logoutFailureSwallowed_witness :
    performLogout envNoHooks LogoutHelperOutcome.resolves
        (Except.error { message := "net down", status := some 502 }) =
      Except.ok LogoutResult.nullValue ∧
    signOut scenarioConstruct.ctrl envNoHooks LogoutHelperOutcome.resolves
        (Except.error { message := "net down", status := some 502 })
        BootstrapOutcome.hookResolvedSilently =
      signOut scenarioConstruct.ctrl envNoHooks LogoutHelperOutcome.resolves
        (Except.ok 204) BootstrapOutcome.hookResolvedSilently ∧
    signOut scenarioConstruct.ctrl envNoHooks LogoutHelperOutcome.resolves
        (Except.error { message := "net down", status := some 502 })
        BootstrapOutcome.hookResolvedSilently =
      Except.ok (if envNoHooks.hasInitAuthClient then
                   bootstrapSession
                     { scenarioConstruct.ctrl with pendingProfile := none }
                     envNoHooks BootstrapOutcome.hookResolvedSilently
                 else
                   markUnauthenticated
                     { scenarioConstruct.ctrl with pendingProfile := none }
                     { prompt := true }) :=
  mprC10_logoutFailureSwallowed scenarioConstruct.ctrl envNoHooks
    LogoutHelperOutcome.resolves { message := "net down", status := some 502 }
    (Except.error { message := "net down", status := some 502 }) (Except.ok 204)
    BootstrapOutcome.hookResolvedSilently rfl

end MprUi
